import Mathlib

/-!
Verification development for the `jimeng4-mcp-server` client (`src/index.ts`).

The TypeScript source is shallowly embedded below.  Conventions:

* JavaScript `undefined`-able values become `Option _`; JS truthiness tests
  (`if (x)`, `x || d`) are modelled explicitly (`0`, `""`, `undefined` are
  falsy; objects and arrays, even empty ones, are truthy).
* `axios` results are modelled by `AxiosOutcome`: either a thrown transport /
  HTTP error (caught by the surrounding `try`), or a delivered response with
  an HTTP status and a decoded body.
* The node `crypto` HMAC-SHA256 primitive and the host `JSON.parse` are
  external library calls, not code of this repository; they are passed to the
  embedded functions as explicit function arguments (`hmacS`/`hmacB`/`hashHex`
  /`hexB`, resp. `parse`), so every definition remains executable once a
  concrete instance is supplied.
* The wall clock read by `signV4Request` is passed in as the `currentDate`
  string argument.
* JS numbers are modelled as `Int` (the code under study only compares and
  multiplies them).
* Chinese string literals are copied verbatim from the source.
-/

namespace Jimeng

/-- JS `s || d` for strings: the empty string is falsy. -/
def jsOrS (s d : String) : String := if s = "" then d else s

/-- JS `o || d` where `o` may be `undefined`: `undefined` and `""` are falsy. -/
def jsOrOptS (o : Option String) (d : String) : String :=
  match o with
  | some s => jsOrS s d
  | none => d

/-- JS truthiness of a possibly-undefined number: `undefined` and `0` are falsy. -/
def truthyNum (o : Option Int) : Bool :=
  match o with
  | some n => n != 0
  | none => false

/-- JS truthiness of a possibly-undefined string: `undefined` and `""` are falsy. -/
def truthyStr (o : Option String) : Bool :=
  match o with
  | some s => s != ""
  | none => false

/-- A JavaScript/JSON value, used for loosely-typed provider payload fields
(`resp_data` after `JSON.parse`, `video_url`). -/
inductive Js where
  | nullv : Js
  | boolv : Bool → Js
  | num : Int → Js
  | str : String → Js
  | arr : List Js → Js
  | obj : List (String × Js) → Js

/-- JS `String.prototype.toUpperCase`, which the source applies to ASCII
provider status strings: uppercase each character.  (Defined by structural
recursion over the character list; core `String.toUpper` is equivalent but
is compiled in a way the kernel cannot evaluate.) -/
def jsToUpperCase (s : String) : String := ⟨s.data.map Char.toUpper⟩

/-! ### Signer (`getSignatureKey`, `formatQuery`, `signV4Request`) -/

/-- Embeds `JimengClient.getSignatureKey` (src/index.ts:164-170).
`hmacS` models `crypto.createHmac('sha256', stringKey).update(msg).digest()`,
`hmacB` the same with a `Buffer` key; `B` is the type of digest buffers. -/
def getSignatureKey {B : Type} (hmacS : String → String → B) (hmacB : B → String → B)
    (key dateStamp regionName serviceName : String) : B :=
  let kDate := hmacS key dateStamp
  let kRegion := hmacB kDate regionName
  let kService := hmacB kRegion serviceName
  let kSigning := hmacB kService "request"
  kSigning

/-- The sorted key list built by `formatQuery` (src/index.ts:175-178):
`Object.keys(parameters).sort()`.  The input mapping is modelled as an
association list in enumeration order; JS default sort orders keys
lexicographically (identical to Lean's `String` order on the ASCII keys used
here), and is modelled by `insertionSort`, which computes the same sorted
arrangement. -/
def formatQuerySortedKeys (parameters : List (String × String)) : List String :=
  (parameters.map Prod.fst).insertionSort (· ≤ ·)

/-- Embeds `JimengClient.formatQuery` (src/index.ts:175-178):
sorted keys joined as `key=value` pairs with `&`. -/
def formatQuery (parameters : List (String × String)) : String :=
  String.intercalate "&"
    ((formatQuerySortedKeys parameters).map
      (fun key => key ++ "=" ++ ((parameters.lookup key).getD "")))

/-- Output of `signV4Request`: the signature together with the headers and
request URL the source assembles around it. -/
structure SignV4Output where
  signature : String
  authorizationHeader : String
  headers : List (String × String)
  requestUrl : String

/-- Embeds `JimengClient.signV4Request` (src/index.ts:183-249).
`hashHex` models `crypto.createHash('sha256').update(s).digest('hex')`;
`hexB` models `.digest('hex')` on a keyed hash; `currentDate` is the
compact ISO timestamp the source derives from `new Date()`; `regionOpt` is
the optional per-call region (`region || this.region`). -/
def signV4Request {B : Type} (hashHex : String → String) (hmacS : String → String → B)
    (hmacB : B → String → B) (hexB : B → String)
    (secretKey accessKey endpoint host thisRegion service : String)
    (regionOpt : Option String) (currentDate reqQuery reqBody : String) : SignV4Output :=
  let datestamp := currentDate.take 8
  let usedRegion := jsOrOptS regionOpt thisRegion
  let method := "POST"
  let canonicalUri := "/"
  let canonicalQuerystring := reqQuery
  let signedHeaders := "content-type;host;x-content-sha256;x-date"
  let payloadHash := hashHex reqBody
  let contentType := "application/json"
  let canonicalHeaders :=
    String.intercalate "\n"
      ["content-type:" ++ contentType, "host:" ++ host,
       "x-content-sha256:" ++ payloadHash, "x-date:" ++ currentDate] ++ "\n"
  let canonicalRequest :=
    String.intercalate "\n"
      [method, canonicalUri, canonicalQuerystring, canonicalHeaders, signedHeaders, payloadHash]
  let algorithm := "HMAC-SHA256"
  let credentialScope := datestamp ++ "/" ++ usedRegion ++ "/" ++ service ++ "/request"
  let stringToSign :=
    String.intercalate "\n" [algorithm, currentDate, credentialScope, hashHex canonicalRequest]
  let signingKey := getSignatureKey hmacS hmacB secretKey datestamp usedRegion service
  let signature := hexB (hmacB signingKey stringToSign)
  let authorizationHeader :=
    algorithm ++ " Credential=" ++ accessKey ++ "/" ++ credentialScope ++
      ", SignedHeaders=" ++ signedHeaders ++ ", Signature=" ++ signature
  { signature := signature
    authorizationHeader := authorizationHeader
    headers :=
      [("X-Date", currentDate), ("Authorization", authorizationHeader),
       ("X-Content-Sha256", payloadHash), ("Content-Type", contentType), ("Host", host)]
    requestUrl := endpoint ++ "?" ++ canonicalQuerystring }

/-! ### Transport (`axios` call-site configurations) -/

/-- The per-request options relevant to the transport contract: whether the
call passes `timeout: this.timeout`, and whether it passes
`validateStatus: null` (which makes axios deliver non-2xx statuses as data
instead of throwing). -/
structure AxiosRequestConfig where
  hasTimeout : Bool
  validateStatusNull : Bool

/-- Config of the `axios.post(..., { headers, timeout: this.timeout,
validateStatus: null })` calls in `generateImage` (src/index.ts:304-308),
`submitAsyncTask` (403-407), `queryAsyncTask` (487-491) and
`submitVideoTask` (987-991). -/
def axiosConfigWithTimeout : AxiosRequestConfig :=
  { hasTimeout := true, validateStatusNull := true }

/-- Config of the `axios({ url, method: 'POST', headers, data })` call in
`getVideoTaskResult` (src/index.ts:1110-1115): no `timeout`, no
`validateStatus` option. -/
def getVideoTaskResultAxiosConfig : AxiosRequestConfig :=
  { hasTimeout := false, validateStatusNull := false }

/-- Config of the `axios({ url, method: 'POST', headers, data })` call in
`submitI2VTask` (src/index.ts:1351-1356): no `timeout`, no
`validateStatus` option. -/
def submitI2VTaskAxiosConfig : AxiosRequestConfig :=
  { hasTimeout := false, validateStatusNull := false }

/-- Whether axios raises (rejects the promise) for a delivered HTTP response
with the given status under the given config: with the default
`validateStatus` (not overridden to `null`), any status outside 200-299
throws. -/
def axiosThrowsOnStatus (cfg : AxiosRequestConfig) (status : Nat) : Bool :=
  !cfg.validateStatusNull && !(200 ≤ status && status < 300)

/-! ### Provider responses and `queryAsyncTask` -/

/-- Result of one `axios` round trip, after the JSON body has been decoded
into `β`: either the promise rejected (network error, timeout, or a non-2xx
status under default `validateStatus`) with an error whose message is caught
by the surrounding `try`, or a response was delivered. -/
inductive AxiosOutcome (β : Type) where
  | thrown : String → AxiosOutcome β
  | ok : Nat → β → AxiosOutcome β

/-- The fields of `response.data.data` that `queryAsyncTask` and the image
polling loops read. -/
structure QueryTaskData where
  status : String
  image_urls : Option (List String) := none

/-- The fields of `response.data` that `queryAsyncTask` reads. -/
structure QueryRespBody where
  code : Int
  message : String
  data : QueryTaskData

/-- The subset of the source's `ApiResponse` fields that the embedded
functions produce and the polling loops consume (`raw_response` is an
opaque diagnostic payload and is not modelled). -/
structure ApiResponse where
  success : Bool
  image_urls : Option (List String) := none
  video_urls : Option (List Js) := none
  error : Option String := none
  task_id : Option String := none
  status : Option String := none
  data : Option QueryTaskData := none

/-- Status-normalization table of `queryAsyncTask` (src/index.ts:520-539):
a case-sensitive `switch` whose `default` branch returns
`taskStatus.toUpperCase()`. -/
def normalizeStatusQuery (taskStatus : String) : String :=
  if taskStatus = "in_queue" then "PENDING"
  else if taskStatus = "generating" ∨ taskStatus = "processing" then "RUNNING"
  else if taskStatus = "done" then "SUCCEEDED"
  else if taskStatus = "fail" ∨ taskStatus = "failed" then "FAILED"
  else jsToUpperCase taskStatus

/-- Status-normalization table of `getVideoTaskResult` (src/index.ts:1145-1163):
same shape as `normalizeStatusQuery` but without the `generating` and
`failed` cases. -/
def normalizeStatusVideo (taskStatus : String) : String :=
  if taskStatus = "in_queue" then "PENDING"
  else if taskStatus = "processing" then "RUNNING"
  else if taskStatus = "done" then "SUCCEEDED"
  else if taskStatus = "fail" then "FAILED"
  else jsToUpperCase taskStatus

/-- The moderation error codes special-cased by `queryAsyncTask`
(src/index.ts:505). -/
def moderationCodes : List Int := [50411, 50511, 50412, 50512, 50413]

/-- Embeds `JimengClient.queryAsyncTask` (src/index.ts:448-553) as a function
of the single HTTP round trip it performs.  Every `throw` inside the `try`
lands in the `catch`, which returns `success: false` with the thrown
message (the HTTP-error message's interpolation is reproduced verbatim). -/
def queryAsyncTask (response : AxiosOutcome QueryRespBody) : ApiResponse :=
  match response with
  | .thrown message => { success := false, error := some message }
  | .ok status body =>
    if status ≠ 200 then
      { success := false, error := some ("HTTP错误! 状态码: " ++ toString status) }
    else if body.code ≠ 10000 then
      if body.code ∈ moderationCodes then
        { success := false, status := some "FAILED", error := some body.message }
      else
        { success := false,
          error := some ("API错误: " ++ jsOrS body.message "未知错误" ++
            " (错误码: " ++ toString body.code ++ ")") }
    else
      { success := true, status := some (normalizeStatusQuery body.data.status),
        data := some body.data }

/-! ### `getVideoTaskResult` URL extraction and status handling -/

/-- The fields of the video task payload `response.data.data` that
`getVideoTaskResult` reads.  `resp_data` and `video_url` are loosely typed
provider fields, hence `Js`. -/
structure VideoTaskData where
  status : String
  resp_data : Option Js := none
  video_url : Option Js := none

/-- The fields of `response.data` that `getVideoTaskResult` reads. -/
structure VideoRespBody where
  code : Int
  message : String
  data : VideoTaskData

/-- `respData.urls` access plus the `Array.isArray` guard
(src/index.ts:1172): yields the field only when it exists and is an array. -/
def getUrlsField (v : Js) : Option (List Js) :=
  match v with
  | .obj fields =>
    match fields.lookup "urls" with
    | some (.arr l) => some l
    | _ => none
  | _ => none

/-- Embeds the video-URL assembly of `getVideoTaskResult`
(src/index.ts:1165-1183): start with `[]`; if `resp_data` is a truthy string,
`JSON.parse` it (a parse failure, or a parsed value without a `urls` array,
contributes nothing — a `TypeError` on a non-object parse result is caught by
the same `try`); then push `video_url` when it is a truthy string.
`parse` models the host `JSON.parse` (returning `none` when it throws). -/
def extractVideoUrls (parse : String → Option Js) (taskData : VideoTaskData) : List Js :=
  let videoUrls : List Js :=
    match taskData.resp_data with
    | some (.str s) =>
      if s ≠ "" then
        match parse s with
        | some respData =>
          match getUrlsField respData with
          | some l => l
          | none => []
        | none => []
      else []
    | _ => []
  match taskData.video_url with
  | some (.str s) => if s ≠ "" then videoUrls ++ [Js.str s] else videoUrls
  | _ => videoUrls

/-- Embeds one attempt of `JimengClient.getVideoTaskResult`
(src/index.ts:1073-1227) as a function of its HTTP round trip.  The
surrounding retry-once loop only converts thrown errors into
`success: false` responses, which the polling loops treat identically, so a
thrown error is mapped directly to its caught form (the JSON-stringified
response detail appended to the thrown HTTP-error message is elided). -/
def getVideoTaskResultOnce (parse : String → Option Js)
    (response : AxiosOutcome VideoRespBody) : ApiResponse :=
  match response with
  | .thrown message => { success := false, error := some message }
  | .ok status body =>
    if status = 200 then
      if body.code ≠ 10000 then
        if body.code = 50411 then
          { success := false, status := some "FAILED",
            error := some ("内容安全检查未通过: " ++ body.message) }
        else
          { success := false,
            error := some ("服务器返回业务错误: " ++ body.message ++
              " (错误码: " ++ toString body.code ++ ")") }
      else
        { success := true,
          status := some (normalizeStatusVideo (VideoTaskData.status (VideoRespBody.data body))),
          video_urls := some (extractVideoUrls parse (VideoRespBody.data body)) }
    else
      { success := false, error := some ("HTTP错误! 状态码: " ++ toString status) }

/-! ### Polling loops -/

/-- The fixed inter-poll sleep, `pollingInterval = 5000` ms
(src/index.ts:637, 1249). -/
def pollingIntervalMs : Nat := 5000

/-- Result of running a polling loop: the returned response, the number of
`queryAsyncTask` / `getVideoTaskResult` calls made, and the total time spent
in the 5-second sleeps. -/
structure PollOutcome where
  resp : ApiResponse
  queries : Nat
  sleptMs : Nat

/-- The shared shape of the `for (let i = 0; i < maxAttempts; i++)` polling
loops: `attempt i` is `some r` when the body returns `r` at index `i`
(a terminal outcome) and `none` when it sleeps `pollingInterval` and
continues; exhausting the loop returns `timeoutResp`. -/
def pollAux (timeoutResp : ApiResponse) (attempt : Nat → Option ApiResponse) :
    Nat → Nat → PollOutcome
  | 0, _ => { resp := timeoutResp, queries := 0, sleptMs := 0 }
  | fuel + 1, i =>
    match attempt i with
    | some r => { resp := r, queries := 1, sleptMs := 0 }
    | none =>
      let rest := pollAux timeoutResp attempt fuel (i + 1)
      { resp := rest.resp, queries := rest.queries + 1,
        sleptMs := rest.sleptMs + pollingIntervalMs }

/-- Classification done by one iteration of the `generateJimengV40Image`
polling loop body (src/index.ts:649-679): `some r` means the loop returns
`r`; `none` means it sleeps and retries.  The same body appears verbatim
(different `req_key` and message strings only) in `generateJimengI2IV30Image`,
`generateJimengT2IV31Image` and `generateJimengT2IV30Image`. -/
def stepV40 (taskId : String) (result : ApiResponse) : Option ApiResponse :=
  if result.success then
    if result.status = some "SUCCEEDED" ∧ result.data.isSome then
      let d := result.data.getD { status := "" }
      let imageUrls := d.image_urls.getD []
      if imageUrls.length > 0 then
        some { success := true, image_urls := some imageUrls, task_id := some taskId }
      else none
    else if result.status = some "FAILED" then
      some { success := false, error := some (jsOrOptS result.error "图片生成任务失败"),
             task_id := some taskId }
    else none
  else none

/-- The timeout failure returned when the `generateJimengV40Image` loop
exhausts its 60 attempts (src/index.ts:683-687). -/
def timeoutRespV40 (taskId : String) : ApiResponse :=
  { success := false, error := some "轮询任务结果超时，图片生成可能仍在进行中",
    task_id := some taskId }

/-- The polling phase of `generateJimengV40Image` (src/index.ts:636-688):
60 attempts, 5-second sleeps, over a stream of HTTP outcomes
(`responses i` is the round trip of attempt `i`). -/
def generateJimengV40Poll (taskId : String)
    (responses : Nat → AxiosOutcome QueryRespBody) : PollOutcome :=
  pollAux (timeoutRespV40 taskId)
    (fun i => stepV40 taskId (queryAsyncTask (responses i))) 60 0

/-- Classification done by one iteration of the `generateVideo` polling loop
body (src/index.ts:1257-1279). -/
def stepVideo (taskId : String) (result : ApiResponse) : Option ApiResponse :=
  if result.success then
    if (result.status = some "SUCCEEDED" ∨ result.status = some "done")
        ∧ (result.video_urls.getD []).length > 0 then
      some { success := true, video_urls := result.video_urls, task_id := some taskId }
    else if result.status = some "FAILED" then
      some { success := false, error := some "视频生成任务失败", task_id := some taskId }
    else none
  else none

/-- The timeout failure returned when the `generateVideo` loop exhausts its
100 attempts (src/index.ts:1288-1292). -/
def timeoutRespVideo (taskId : String) : ApiResponse :=
  { success := false, error := some "轮询任务结果超时，请使用任务ID手动查询结果",
    task_id := some taskId }

/-- The polling phase of `generateVideo` (src/index.ts:1247-1293):
100 attempts, 5-second sleeps. -/
def generateVideoPoll (parse : String → Option Js) (taskId : String)
    (responses : Nat → AxiosOutcome VideoRespBody) : PollOutcome :=
  pollAux (timeoutRespVideo taskId)
    (fun i => stepVideo taskId (getVideoTaskResultOnce parse (responses i))) 100 0

/-! ### `submitJimengV40Task` -/

/-- The source's `JimengV40Params` (src/index.ts:67-78).  `scale` is a JS
float, modelled as `Int` (its value is only copied, never computed with). -/
structure JimengV40Params where
  prompt : String
  image_urls : Option (List String) := none
  width : Option Int := none
  height : Option Int := none
  size : Option Int := none
  scale : Option Int := none
  force_single : Option Bool := none
  seed : Option Int := none
  min_ratio : Option Int := none
  max_ratio : Option Int := none

/-- The cleaned request body `cleanParams` assembled by
`submitJimengV40Task`. -/
structure V40Body where
  req_key : String
  prompt : String
  width : Option Int := none
  height : Option Int := none
  size : Option Int := none
  image_urls : Option (List String) := none
  scale : Option Int := none
  force_single : Option Bool := none
  seed : Option Int := none
  min_ratio : Option Int := none
  max_ratio : Option Int := none

/-- Either the early validation failure of `submitJimengV40Task` — returned
as `{ success: false, error }` (no `task_id`) before any network call — or
the body it hands to `submitAsyncTask`. -/
inductive SubmitDecision where
  | reject : String → SubmitDecision
  | submit : V40Body → SubmitDecision

/-- The `ApiResponse` produced by an early `reject` (no network call is
made, and no `task_id` field is set). -/
def rejectResponse (error : String) : ApiResponse :=
  { success := false, error := some error }

/-- The optional-parameter copying of `submitJimengV40Task`
(src/index.ts:594-612): `image_urls` only when non-empty (JS
`params.image_urls && params.image_urls.length > 0`), the rest whenever not
`undefined`. -/
def v40Extras (params : JimengV40Params) (b : V40Body) : V40Body :=
  { b with
    image_urls := if (params.image_urls.getD []).length > 0 then params.image_urls else none
    scale := params.scale
    force_single := params.force_single
    seed := params.seed
    min_ratio := params.min_ratio
    max_ratio := params.max_ratio }

/-- Embeds `JimengClient.submitJimengV40Task` (src/index.ts:558-615).
Note the JS truthiness tests: `if (params.width && params.height)` and
`else if (!params.width && !params.height && params.size)` treat `0` like
`undefined`. -/
def submitJimengV40Task (params : JimengV40Params) : SubmitDecision :=
  let base : V40Body := { req_key := "jimeng_t2i_v40", prompt := params.prompt }
  if truthyNum params.width && truthyNum params.height then
    let w := params.width.getD 0
    let h := params.height.getD 0
    let area := w * h
    if area < 1024 * 1024 ∨ area > 4096 * 4096 then
      .reject ("宽高乘积必须在[1048576, 16777216]范围内，当前值：" ++ toString area)
    else
      .submit (v40Extras params { base with width := some w, height := some h })
  else if !truthyNum params.width && !truthyNum params.height && truthyNum params.size then
    let s := params.size.getD 0
    let size : Int :=
      if s < 1024 * 1024 then 1024 * 1024
      else if s > 4096 * 4096 then 4096 * 4096
      else s
    .submit (v40Extras params { base with size := some size })
  else
    .submit (v40Extras params base)

/-! ### `submitI2VTask` -/

/-- The source's `GenerateI2VParams` (src/index.ts:55-62). -/
structure GenerateI2VParams where
  image_url : Option String := none
  image_urls : Option (List String) := none
  prompt : Option String := none
  req_key : Option String := none
  aspect_ratio : Option String := none
  region : Option String := none

/-- The request body assembled by `submitI2VTask` (src/index.ts:1325-1332). -/
structure I2VBody where
  req_key : String
  image_urls : List String
  aspect_ratio : String
  prompt : Option String := none

/-- Either the missing-image failure of `submitI2VTask` — the thrown
`缺少必要的参数` error is caught and, after the retry loop (which re-throws the
same error), returned as `{ success: false, error }` with no `task_id` —
or the body it submits. -/
inductive I2VDecision where
  | reject : String → I2VDecision
  | submit : I2VBody → I2VDecision

/-- The image-URL selection of `submitI2VTask` (src/index.ts:1305-1315):
a truthy non-empty `image_urls` array wins; otherwise a truthy `image_url`
is wrapped; otherwise the call throws. -/
def selectImageUrls (params : GenerateI2VParams) : Option (List String) :=
  if (params.image_urls.getD []).length > 0 then params.image_urls
  else if truthyStr params.image_url then some [params.image_url.getD ""]
  else none

/-- Embeds `JimengClient.submitI2VTask` (src/index.ts:1298-1422) up to the
network call: input normalization and body assembly. -/
def submitI2VTask (params : GenerateI2VParams) : I2VDecision :=
  match selectImageUrls params with
  | none => .reject "缺少必要的参数: image_url 或 image_urls"
  | some imageUrls =>
    .submit
      { req_key := jsOrOptS params.req_key "jimeng_vgfm_i2v_l20"
        image_urls := imageUrls
        aspect_ratio := jsOrOptS params.aspect_ratio "16:9"
        prompt := if truthyStr params.prompt then params.prompt else none }

/-! ### Spec-side decompositions and concrete example inputs -/

/-- Spec-side restatement of the first assembly step of `getVideoTaskResult`:
the URLs contributed by JSON-parsing the `resp_data` string field
(nothing when `resp_data` is absent, not a string, empty, unparsable, or
lacks a `urls` array). -/
def urlsFromRespData (parse : String → Option Js) (td : VideoTaskData) : List Js :=
  match td.resp_data with
  | some (.str s) =>
    if s ≠ "" then
      match parse s with
      | some respData =>
        match getUrlsField respData with
        | some l => l
        | none => []
      | none => []
    else []
  | _ => []

/-- Spec-side restatement of the second assembly step of
`getVideoTaskResult`: the trailing `video_url` element (present only when
`video_url` is a truthy string). -/
def videoUrlTail (td : VideoTaskData) : List Js :=
  match td.video_url with
  | some (.str s) => if s ≠ "" then [Js.str s] else []
  | _ => []

/-- A poll-response stream that always reports `done` with an empty
`image_urls` list. -/
def emptyDoneStream : Nat → AxiosOutcome QueryRespBody :=
  fun _ => .ok 200 ⟨10000, "", ⟨"done", some []⟩⟩

/-- A poll-response stream that always reports the moderation error code
50411. -/
def moderationStream : Nat → AxiosOutcome QueryRespBody :=
  fun _ => .ok 200 ⟨50411, "m1", ⟨"", none⟩⟩

/-- A poll-response stream that always reports `in_queue`. -/
def pendingQueryStream : Nat → AxiosOutcome QueryRespBody :=
  fun _ => .ok 200 ⟨10000, "", ⟨"in_queue", none⟩⟩

/-- A video poll-response stream that always reports `in_queue`. -/
def pendingVideoStream : Nat → AxiosOutcome VideoRespBody :=
  fun _ => .ok 200 ⟨10000, "", { status := "in_queue" }⟩

/-- A `JSON.parse` model that always fails. -/
def noParse : String → Option Js := fun _ => none

/-- A `JSON.parse` model returning an object with a one-element `urls`
array. -/
def urlsParseExample : String → Option Js :=
  fun _ => some (.obj [("urls", .arr [.str "u"])])

/-- Video task payload whose `video_url` field is present but holds the
empty string. -/
def emptyVideoUrlTaskData : VideoTaskData :=
  { status := "done", resp_data := none, video_url := some (.str "") }

/-- Video task payload with both a parsable `resp_data` and a `video_url`. -/
def fullVideoTaskData : VideoTaskData :=
  { status := "done", resp_data := some (.str "x"), video_url := some (.str "v") }

/-! ### Helper lemmas -/

/-- The polling loop never makes more queries than its fuel (attempt cap). -/
lemma pollAux_queries_le (t : ApiResponse) (a : Nat → Option ApiResponse) :
    ∀ fuel i, (pollAux t a fuel i).queries ≤ fuel
  | 0, _ => Nat.le_refl 0
  | fuel + 1, i => by
    cases h : a i with
    | some r => simp [pollAux, h]
    | none =>
      have ih := pollAux_queries_le t a fuel (i + 1)
      simp only [pollAux, h]
      omega

/-- When no attempt is terminal, the polling loop burns all its fuel,
sleeps after every attempt, and returns the timeout response. -/
lemma pollAux_all_none (t : ApiResponse) (a : Nat → Option ApiResponse)
    (h : ∀ i, a i = none) :
    ∀ fuel i, pollAux t a fuel i =
      { resp := t, queries := fuel, sleptMs := fuel * pollingIntervalMs }
  | 0, _ => by simp [pollAux]
  | fuel + 1, i => by
    have ih := pollAux_all_none t a h fuel (i + 1)
    simp [pollAux, h i, ih, Nat.succ_mul]

/-- A `SUCCEEDED` poll result with an empty `image_urls` list is not
terminal for the image polling loop body: the loop sleeps and retries. -/
lemma stepV40_none_of_empty_success (taskId : String) (r : ApiResponse)
    (hs : r.status = some "SUCCEEDED")
    (hu : ((r.data.getD { status := "" }).image_urls.getD []).length = 0) :
    stepV40 taskId r = none := by
  unfold stepV40
  by_cases hsucc : r.success
  · cases hd : r.data with
    | none => simp [hsucc, hs, hd]
    | some d =>
      rw [hd] at hu
      simp only [Option.getD_some, List.length_eq_zero] at hu
      simp [hsucc, hs, hd, hu]
  · simp [hsucc]

/-- `List.lookup` is insensitive to permutation when the keys are distinct. -/
lemma lookup_eq_of_perm {α β : Type} [BEq α] [LawfulBEq α] {p q : List (α × β)}
    (h : List.Perm p q) (hn : (p.map Prod.fst).Nodup) (k : α) :
    p.lookup k = q.lookup k := by
  induction h with
  | nil => rfl
  | cons x h ih =>
    obtain ⟨a, b⟩ := x
    simp only [List.map_cons, List.nodup_cons] at hn
    simp only [List.lookup]
    cases hak : k == a with
    | true => rfl
    | false => simpa [hak] using ih hn.2
  | swap x y l =>
    obtain ⟨a₁, b₁⟩ := x
    obtain ⟨a₂, b₂⟩ := y
    simp only [List.map_cons, List.nodup_cons, List.mem_cons, not_or] at hn
    simp only [List.lookup]
    cases h₂ : k == a₂ with
    | true =>
      cases h₁ : k == a₁ with
      | true =>
        exfalso
        exact hn.1.1 ((eq_of_beq h₂).symm.trans (eq_of_beq h₁))
      | false => simp [h₁, h₂]
    | false =>
      cases h₁ : k == a₁ with
      | true => simp [h₁, h₂]
      | false => simp [h₁, h₂]
  | trans h₁ h₂ ih₁ ih₂ =>
    exact (ih₁ hn).trans (ih₂ ((h₁.map Prod.fst).nodup hn))

/-- A weakly sorted list without duplicates is strictly sorted. -/
lemma sorted_lt_of_sorted_le_nodup {l : List String}
    (hs : List.Sorted (· ≤ ·) l) (hn : l.Nodup) : List.Sorted (· < ·) l :=
  (hs.and hn).imp fun hab => lt_of_le_of_ne hab.1 hab.2

/-! ### Claim theorems -/

/-- Claim C1, counterexample.  The claim states that status normalization is
case-insensitive and that any status string outside the table yields an
explicit UNKNOWN outcome surfaced as an error.  In fact: the unlisted string
`weird_state` produces a *successful* response whose status is just the
uppercased input (no UNKNOWN marker, no error); matching is case-sensitive
(`In_Queue` does not map to `PENDING`); and `getVideoTaskResult`'s table
lacks the `generating` entry (it normalizes to `GENERATING`, not
`RUNNING`). -/
theorem c1_status_table_counterexample :
    (queryAsyncTask (.ok 200 ⟨10000, "", ⟨"weird_state", none⟩⟩)).success = true ∧
    (queryAsyncTask (.ok 200 ⟨10000, "", ⟨"weird_state", none⟩⟩)).status =
      some "WEIRD_STATE" ∧
    (queryAsyncTask (.ok 200 ⟨10000, "", ⟨"weird_state", none⟩⟩)).error = none ∧
    ("WEIRD_STATE" == "UNKNOWN") = false ∧
    normalizeStatusQuery "In_Queue" = "IN_QUEUE" ∧
    normalizeStatusVideo "generating" = "GENERATING" :=
  ⟨rfl, rfl, rfl, rfl, rfl, rfl⟩

/-- Claim C1, amended.  `queryAsyncTask` normalizes provider statuses via the
fixed table matching *case-sensitively* (`in_queue` to `PENDING`,
`generating`/`processing` to `RUNNING`, `done` to `SUCCEEDED`,
`fail`/`failed` to `FAILED`); any string outside the table is mapped to its
uppercased form and returned in a successful response (not an UNKNOWN error).
`getVideoTaskResult` uses the same table minus the `generating` and `failed`
entries, with the same uppercasing fallthrough. -/
theorem c1_status_table_amended :
    normalizeStatusQuery "in_queue" = "PENDING" ∧
    normalizeStatusQuery "generating" = "RUNNING" ∧
    normalizeStatusQuery "processing" = "RUNNING" ∧
    normalizeStatusQuery "done" = "SUCCEEDED" ∧
    normalizeStatusQuery "fail" = "FAILED" ∧
    normalizeStatusQuery "failed" = "FAILED" ∧
    (∀ s : String,
      s ∉ ["in_queue", "generating", "processing", "done", "fail", "failed"] →
      normalizeStatusQuery s = jsToUpperCase s) ∧
    (∀ body : QueryRespBody, body.code = 10000 →
      queryAsyncTask (.ok 200 body) =
        { success := true, status := some (normalizeStatusQuery body.data.status),
          data := some body.data }) ∧
    normalizeStatusVideo "in_queue" = "PENDING" ∧
    normalizeStatusVideo "processing" = "RUNNING" ∧
    normalizeStatusVideo "done" = "SUCCEEDED" ∧
    normalizeStatusVideo "fail" = "FAILED" ∧
    (∀ s : String, s ∉ ["in_queue", "processing", "done", "fail"] →
      normalizeStatusVideo s = jsToUpperCase s) ∧
    (∀ (parse : String → Option Js) (body : VideoRespBody), body.code = 10000 →
      getVideoTaskResultOnce parse (.ok 200 body) =
        { success := true,
          status := some (normalizeStatusVideo (VideoTaskData.status (VideoRespBody.data body))),
          video_urls := some (extractVideoUrls parse (VideoRespBody.data body)) }) := by
  refine ⟨rfl, rfl, rfl, rfl, rfl, rfl, ?_, ?_, rfl, rfl, rfl, rfl, ?_, ?_⟩
  · intro s hs
    simp only [List.mem_cons, List.mem_singleton, not_or] at hs
    obtain ⟨h1, h2, h3, h4, h5, h6, -⟩ := hs
    simp [normalizeStatusQuery, h1, h2, h3, h4, h5, h6]
  · intro body h
    simp [queryAsyncTask, h]
  · intro s hs
    simp only [List.mem_cons, List.mem_singleton, not_or] at hs
    obtain ⟨h1, h2, h3, h4, -⟩ := hs
    simp [normalizeStatusVideo, h1, h2, h3, h4]
  · intro parse body h
    simp [getVideoTaskResultOnce, h]

/-- Witness for C1 (amended): the fallthrough at `weird_state`, the success
shape at `done`, and the `failed` fallthrough of the video table (which
uppercases to `FAILED` by accident). -/
theorem c1_status_table_amended_witness :
    normalizeStatusQuery "weird_state" = jsToUpperCase "weird_state" ∧
    queryAsyncTask (.ok 200 ⟨10000, "msg", ⟨"done", some ["u"]⟩⟩) =
      { success := true, status := some (normalizeStatusQuery "done"),
        data := some ⟨"done", some ["u"]⟩ } ∧
    normalizeStatusVideo "failed" = jsToUpperCase "failed" ∧
    getVideoTaskResultOnce noParse (.ok 200 ⟨10000, "msg", { status := "done" }⟩) =
      { success := true, status := some (normalizeStatusVideo "done"),
        video_urls := some (extractVideoUrls noParse { status := "done" }) } := by
  obtain ⟨-, -, -, -, -, -, hq, hok, -, -, -, -, hv, hvok⟩ := c1_status_table_amended
  exact ⟨hq "weird_state" (by decide), hok ⟨10000, "msg", ⟨"done", some ["u"]⟩⟩ rfl,
    hv "failed" (by decide), hvok noParse ⟨10000, "msg", { status := "done" }⟩ rfl⟩

/-- Claim C2, counterexample.  The claim states that a `SUCCEEDED` poll
response with an empty output list is reported as a FAILED outcome, not as a
state to be retried.  In fact the loop body of `generateJimengV40Image`
treats it as non-terminal (`stepV40` yields `none`, i.e. sleep and retry),
and with every poll returning such a response the loop runs all 60 attempts
and returns the generic polling-timeout failure, not an immediate FAILED
report. -/
theorem c2_empty_success_counterexample :
    stepV40 "T1" (queryAsyncTask (emptyDoneStream 0)) = none ∧
    (generateJimengV40Poll "T1" emptyDoneStream).queries = 60 ∧
    (generateJimengV40Poll "T1" emptyDoneStream).resp =
      { success := false, error := some "轮询任务结果超时，图片生成可能仍在进行中",
        task_id := some "T1" } :=
  ⟨rfl, rfl, rfl⟩

/-- Claim C2, amended.  A poll response whose normalized status is
`SUCCEEDED` but whose output URL list is empty is never reported as
SUCCEEDED: the orchestrator treats it as a state to be retried, and when
every poll yields such a response the loop exhausts its 60-attempt budget
and returns a failure describing a polling timeout, carrying the task id. -/
theorem c2_empty_success_amended :
    (∀ (taskId : String) (r : ApiResponse), r.status = some "SUCCEEDED" →
      ((r.data.getD { status := "" }).image_urls.getD []).length = 0 →
      stepV40 taskId r = none) ∧
    (∀ (taskId : String) (responses : Nat → AxiosOutcome QueryRespBody),
      (∀ i, (queryAsyncTask (responses i)).status = some "SUCCEEDED" ∧
        (((queryAsyncTask (responses i)).data.getD { status := "" }).image_urls.getD
          []).length = 0) →
      generateJimengV40Poll taskId responses =
        { resp := timeoutRespV40 taskId, queries := 60,
          sleptMs := 60 * pollingIntervalMs }) :=
  ⟨stepV40_none_of_empty_success,
   fun _ _ h =>
    pollAux_all_none _ _
      (fun i => stepV40_none_of_empty_success _ _ (h i).1 (h i).2) 60 0⟩

/-- Witness for C2 (amended), at a concrete empty-`SUCCEEDED` response and
the constant stream of such responses. -/
theorem c2_empty_success_amended_witness :
    stepV40 "W"
        { success := true, status := some "SUCCEEDED", data := some ⟨"done", some []⟩ } =
      none ∧
    generateJimengV40Poll "W" emptyDoneStream =
      { resp := timeoutRespV40 "W", queries := 60, sleptMs := 60 * pollingIntervalMs } := by
  obtain ⟨h1, h2⟩ := c2_empty_success_amended
  exact ⟨h1 "W" _ rfl rfl, h2 "W" emptyDoneStream (fun i => ⟨rfl, rfl⟩)⟩

/-- Claim C3 (code bug evidence).  The spec's transport contract requires
every HTTP request to apply the configured per-call timeout and to receive
non-2xx statuses as data; the four `axios.post` call sites do pass
`timeout: this.timeout, validateStatus: null`, but the two `axios({...})`
call sites in `getVideoTaskResult` and `submitI2VTask` pass neither, so no
per-call timeout applies there and axios's default `validateStatus` throws
on any non-2xx status (e.g. 500 or 429) instead of delivering it as data. -/
theorem c3_transport_config_bug :
    getVideoTaskResultAxiosConfig.hasTimeout = false ∧
    getVideoTaskResultAxiosConfig.validateStatusNull = false ∧
    submitI2VTaskAxiosConfig.hasTimeout = false ∧
    submitI2VTaskAxiosConfig.validateStatusNull = false ∧
    axiosThrowsOnStatus getVideoTaskResultAxiosConfig 500 = true ∧
    axiosThrowsOnStatus submitI2VTaskAxiosConfig 429 = true ∧
    axiosConfigWithTimeout.hasTimeout = true ∧
    axiosConfigWithTimeout.validateStatusNull = true ∧
    axiosThrowsOnStatus axiosConfigWithTimeout 500 = false := by
  decide

/-- Claim C4.  `getSignatureKey` derives the signing key by exactly the
four-step keyed-hash chain secret → dateStamp → region → service → the fixed
literal `request`, each step keying the hash with the previous digest; and
for fixed inputs (secret, timestamp, region, service, query, body — the wall
clock being an explicit argument of the embedding) the signature produced by
`signV4Request` is deterministic. -/
theorem c4_signature_chain_deterministic :
    (∀ (B : Type) (hmacS : String → String → B) (hmacB : B → String → B)
        (key dateStamp regionName serviceName : String),
      getSignatureKey hmacS hmacB key dateStamp regionName serviceName =
        hmacB (hmacB (hmacB (hmacS key dateStamp) regionName) serviceName) "request") ∧
    (∀ (B : Type) (hashHex : String → String) (hmacS : String → String → B)
        (hmacB : B → String → B) (hexB : B → String)
        (secretKey accessKey endpoint host thisRegion service : String)
        (regionOpt : Option String) (currentDate reqQuery reqBody : String),
      (signV4Request hashHex hmacS hmacB hexB secretKey accessKey endpoint host thisRegion
          service regionOpt currentDate reqQuery reqBody).signature =
        (signV4Request hashHex hmacS hmacB hexB secretKey accessKey endpoint host thisRegion
          service regionOpt currentDate reqQuery reqBody).signature) :=
  ⟨fun _ _ _ _ _ _ _ => rfl, fun _ _ _ _ _ _ _ _ _ _ _ _ _ _ _ => rfl⟩

/-- Claim C5.  `formatQuery` produces its keys in strictly ascending
lexicographic order (given the distinct keys of a JS object), the produced
string is independent of the input enumeration order, and canonicalizing an
already-canonical (sorted) mapping leaves the key order unchanged. -/
theorem c5_formatQuery_canonicalization :
    (∀ parameters : List (String × String), (parameters.map Prod.fst).Nodup →
      List.Sorted (· < ·) (formatQuerySortedKeys parameters)) ∧
    (∀ p q : List (String × String), List.Perm p q → (p.map Prod.fst).Nodup →
      formatQuery p = formatQuery q) ∧
    (∀ p : List (String × String), List.Sorted (· ≤ ·) (p.map Prod.fst) →
      formatQuerySortedKeys p = p.map Prod.fst) := by
  refine ⟨?_, ?_, ?_⟩
  · intro p hn
    exact sorted_lt_of_sorted_le_nodup (List.sorted_insertionSort _ _)
      ((List.perm_insertionSort _ _).symm.nodup hn)
  · intro p q h hn
    have hkeys : formatQuerySortedKeys p = formatQuerySortedKeys q :=
      List.eq_of_perm_of_sorted
        (((List.perm_insertionSort _ _).trans (h.map Prod.fst)).trans
          (List.perm_insertionSort _ _).symm)
        (List.sorted_insertionSort _ _) (List.sorted_insertionSort _ _)
    unfold formatQuery
    rw [hkeys]
    congr 1
    apply List.map_congr_left
    intro k _
    rw [lookup_eq_of_perm h hn k]
  · intro p hs
    exact hs.insertionSort_eq

/-- Witness for C5, on the source's own query mapping
`Action`/`Version` presented in both enumeration orders. -/
theorem c5_formatQuery_canonicalization_witness :
    formatQuery [("Version", "2022-08-31"), ("Action", "CVProcess")] =
      formatQuery [("Action", "CVProcess"), ("Version", "2022-08-31")] ∧
    formatQuerySortedKeys [("Action", "CVProcess"), ("Version", "2022-08-31")] =
      ["Action", "Version"] := by
  obtain ⟨-, h2, h3⟩ := c5_formatQuery_canonicalization
  constructor
  · exact h2 _ _ (List.Perm.swap _ _ _) (by decide)
  · exact h3 [("Action", "CVProcess"), ("Version", "2022-08-31")]
      (by simp [List.sorted_cons]
          decide)

/-- Claim C6 (code bug evidence).  The first half of the claim holds:
`queryAsyncTask` maps each of the five moderation codes to a terminal
`{ success: false, status: FAILED }` result carrying the provider's message.
But the enclosing polling loop checks `result.success` before its FAILED
branch, so the moderation failure is *not* returned after one query: with
every poll answering code 50411 the loop retries all 60 attempts and returns
the polling-timeout failure instead. -/
theorem c6_moderation_retried_bug :
    queryAsyncTask (.ok 200 ⟨50411, "m1", ⟨"", none⟩⟩) =
      { success := false, status := some "FAILED", error := some "m1" } ∧
    queryAsyncTask (.ok 200 ⟨50511, "m2", ⟨"", none⟩⟩) =
      { success := false, status := some "FAILED", error := some "m2" } ∧
    queryAsyncTask (.ok 200 ⟨50412, "m3", ⟨"", none⟩⟩) =
      { success := false, status := some "FAILED", error := some "m3" } ∧
    queryAsyncTask (.ok 200 ⟨50512, "m4", ⟨"", none⟩⟩) =
      { success := false, status := some "FAILED", error := some "m4" } ∧
    queryAsyncTask (.ok 200 ⟨50413, "m5", ⟨"", none⟩⟩) =
      { success := false, status := some "FAILED", error := some "m5" } ∧
    stepV40 "T1" (queryAsyncTask (moderationStream 0)) = none ∧
    generateJimengV40Poll "T1" moderationStream =
      { resp := timeoutRespV40 "T1", queries := 60, sleptMs := 60 * pollingIntervalMs } :=
  ⟨rfl, rfl, rfl, rfl, rfl, rfl, pollAux_all_none _ _ (fun _ => rfl) 60 0⟩

/-- Claim C7.  Each polling loop performs at most its fixed attempt cap
(60 for the image `generate*` methods, 100 for the video ones) with a fixed
5000 ms sleep between attempts, and when no poll is terminal it returns,
after exactly the capped number of queries, a failure indicating timeout
that carries the task id. -/
theorem c7_poll_budget :
    pollingIntervalMs = 5000 ∧
    (∀ (taskId : String) (responses : Nat → AxiosOutcome QueryRespBody),
      (generateJimengV40Poll taskId responses).queries ≤ 60) ∧
    (∀ (taskId : String) (responses : Nat → AxiosOutcome QueryRespBody),
      (∀ i, stepV40 taskId (queryAsyncTask (responses i)) = none) →
      generateJimengV40Poll taskId responses =
        { resp := timeoutRespV40 taskId, queries := 60, sleptMs := 60 * pollingIntervalMs }) ∧
    (∀ taskId : String,
      (timeoutRespV40 taskId).task_id = some taskId ∧ (timeoutRespV40 taskId).success = false) ∧
    (∀ (parse : String → Option Js) (taskId : String)
        (responses : Nat → AxiosOutcome VideoRespBody),
      (generateVideoPoll parse taskId responses).queries ≤ 100) ∧
    (∀ (parse : String → Option Js) (taskId : String)
        (responses : Nat → AxiosOutcome VideoRespBody),
      (∀ i, stepVideo taskId (getVideoTaskResultOnce parse (responses i)) = none) →
      generateVideoPoll parse taskId responses =
        { resp := timeoutRespVideo taskId, queries := 100,
          sleptMs := 100 * pollingIntervalMs }) ∧
    (∀ taskId : String,
      (timeoutRespVideo taskId).task_id = some taskId ∧
        (timeoutRespVideo taskId).success = false) :=
  ⟨rfl,
   fun _ _ => pollAux_queries_le _ _ 60 0,
   fun _ _ h => pollAux_all_none _ _ h 60 0,
   fun _ => ⟨rfl, rfl⟩,
   fun _ _ _ => pollAux_queries_le _ _ 100 0,
   fun _ _ _ h => pollAux_all_none _ _ h 100 0,
   fun _ => ⟨rfl, rfl⟩⟩

/-- Witness for C7, on streams that always report `in_queue` (never
terminal): the image loop stops after exactly 60 queries and the video loop
after exactly 100, each returning its timeout failure carrying the task
id. -/
theorem c7_poll_budget_witness :
    generateJimengV40Poll "T1" pendingQueryStream =
      { resp := timeoutRespV40 "T1", queries := 60, sleptMs := 60 * pollingIntervalMs } ∧
    (generateJimengV40Poll "T1" pendingQueryStream).queries ≤ 60 ∧
    generateVideoPoll noParse "T2" pendingVideoStream =
      { resp := timeoutRespVideo "T2", queries := 100,
        sleptMs := 100 * pollingIntervalMs } ∧
    (timeoutRespV40 "T1").task_id = some "T1" := by
  obtain ⟨-, hle, hall, hto, -, hallv, -⟩ := c7_poll_budget
  exact ⟨hall "T1" pendingQueryStream (fun _ => rfl), hle "T1" pendingQueryStream,
    hallv noParse "T2" pendingVideoStream (fun _ => rfl), (hto "T1").1⟩

/-- Claim C8, counterexample.  The claim quantifies over parameters with
both `width` and `height` present; but the source tests JS truthiness, so a
present-but-zero dimension is treated like an absent one.  With
`width = 0, height = 1024` (product 0, far below 1048576) the task is
submitted (no early failure), and with `size = 0` no clamped size is
submitted either — the body carries no width, height or size. -/
theorem c8_v40_dimensions_counterexample :
    submitJimengV40Task { prompt := "p", width := some 0, height := some 1024 } =
      .submit { req_key := "jimeng_t2i_v40", prompt := "p" } ∧
    submitJimengV40Task { prompt := "p", size := some 0 } =
      .submit { req_key := "jimeng_t2i_v40", prompt := "p" } :=
  ⟨rfl, rfl⟩

/-- Claim C8, amended.  For nonzero `width` and `height` both present,
`submitJimengV40Task` rejects (failure, no network call, no task id) exactly
when the product lies outside [1048576, 16777216], and otherwise submits a
body with that width and height and no size; when `width` and `height` are
each absent or zero and `size` is present and nonzero, the size is clamped
into [1048576, 16777216] before submission; and when exactly one of
`width`/`height` is given (nonzero), the submitted body carries neither
width, height nor size. -/
theorem c8_v40_dimensions_amended :
    (∀ e : String, (rejectResponse e).success = false ∧ (rejectResponse e).task_id = none) ∧
    (∀ (p : JimengV40Params) (w h : Int), p.width = some w → p.height = some h →
      w ≠ 0 → h ≠ 0 → (w * h < 1048576 ∨ w * h > 16777216) →
      submitJimengV40Task p =
        .reject ("宽高乘积必须在[1048576, 16777216]范围内，当前值：" ++ toString (w * h))) ∧
    (∀ (p : JimengV40Params) (w h : Int), p.width = some w → p.height = some h →
      w ≠ 0 → h ≠ 0 → 1048576 ≤ w * h → w * h ≤ 16777216 →
      ∃ b : V40Body, submitJimengV40Task p = .submit b ∧
        b.width = some w ∧ b.height = some h ∧ b.size = none) ∧
    (∀ (p : JimengV40Params) (s : Int),
      (p.width = none ∨ p.width = some 0) → (p.height = none ∨ p.height = some 0) →
      p.size = some s → s ≠ 0 →
      ∃ b : V40Body, submitJimengV40Task p = .submit b ∧
        b.width = none ∧ b.height = none ∧
        b.size = some (if s < 1048576 then 1048576 else if s > 16777216 then 16777216 else s) ∧
        (1048576 : Int) ≤ (if s < 1048576 then 1048576 else if s > 16777216 then 16777216 else s) ∧
        (if s < 1048576 then (1048576 : Int) else if s > 16777216 then 16777216 else s) ≤
          16777216) ∧
    (∀ p : JimengV40Params,
      (truthyNum p.width = true ∧ truthyNum p.height = false) ∨
        (truthyNum p.width = false ∧ truthyNum p.height = true) →
      ∃ b : V40Body, submitJimengV40Task p = .submit b ∧
        b.width = none ∧ b.height = none ∧ b.size = none) := by
  refine ⟨fun e => ⟨rfl, rfl⟩, ?_, ?_, ?_, ?_⟩
  · intro p w h hw hh hw0 hh0 harea
    have tw : truthyNum p.width = true := by simp [truthyNum, hw, hw0]
    have th : truthyNum p.height = true := by simp [truthyNum, hh, hh0]
    unfold submitJimengV40Task
    rw [tw, th]
    simp only [Bool.and_self, if_true, hw, hh, Option.getD_some]
    rw [show (1024 * 1024 : Int) = 1048576 by norm_num,
      show (4096 * 4096 : Int) = 16777216 by norm_num, if_pos harea]
  · intro p w h hw hh hw0 hh0 h1 h2
    have tw : truthyNum p.width = true := by simp [truthyNum, hw, hw0]
    have th : truthyNum p.height = true := by simp [truthyNum, hh, hh0]
    unfold submitJimengV40Task
    rw [tw, th]
    simp only [Bool.and_self, if_true, hw, hh, Option.getD_some]
    rw [show (1024 * 1024 : Int) = 1048576 by norm_num,
      show (4096 * 4096 : Int) = 16777216 by norm_num, if_neg]
    · exact ⟨_, rfl, rfl, rfl, rfl⟩
    · rintro (hlt | hgt)
      · exact absurd hlt (not_lt.mpr h1)
      · exact absurd hgt (not_lt.mpr h2)
  · intro p s hw hh hs hs0
    have tw : truthyNum p.width = false := by
      rcases hw with h | h <;> simp [truthyNum, h]
    have th : truthyNum p.height = false := by
      rcases hh with h | h <;> simp [truthyNum, h]
    have ts : truthyNum p.size = true := by simp [truthyNum, hs, hs0]
    unfold submitJimengV40Task
    rw [tw, th, ts]
    simp only [Bool.and_false, Bool.false_and, if_false, Bool.not_false, Bool.and_self,
      Bool.and_true, if_true, hs, Option.getD_some]
    refine ⟨_, rfl, rfl, rfl, ?_, ?_, ?_⟩
    · simp [v40Extras]
    · split_ifs <;> omega
    · split_ifs <;> omega
  · intro p hcases
    have hcond1 : (truthyNum p.width && truthyNum p.height) = false := by
      rcases hcases with ⟨h1, h2⟩ | ⟨h1, h2⟩ <;> simp [h1, h2]
    have hcond2 : (!truthyNum p.width && !truthyNum p.height && truthyNum p.size) = false := by
      rcases hcases with ⟨h1, h2⟩ | ⟨h1, h2⟩ <;> simp [h1, h2]
    unfold submitJimengV40Task
    rw [hcond1, hcond2]
    simp only [if_false]
    exact ⟨_, rfl, rfl, rfl, rfl⟩

/-- Witness for C8 (amended): a 100×100 request is rejected with the
source's error message (the theorem applied at concrete inputs), and a
`size = 999` request is clamped up to 1048576. -/
theorem c8_v40_dimensions_amended_witness :
    submitJimengV40Task { prompt := "p", width := some 100, height := some 100 } =
      .reject ("宽高乘积必须在[1048576, 16777216]范围内，当前值：" ++
        toString ((100 : Int) * 100)) ∧
    submitJimengV40Task { prompt := "p", size := some 999 } =
      .submit { req_key := "jimeng_t2i_v40", prompt := "p", size := some 1048576 } := by
  refine ⟨?_, rfl⟩
  exact (c8_v40_dimensions_amended).2.1
    { prompt := "p", width := some 100, height := some 100 } 100 100 rfl rfl
    (by decide) (by decide) (Or.inl (by norm_num))

/-- Claim C9, counterexample.  The claim states that a provided `image_url`
is wrapped into a one-element array; but the source tests JS truthiness, so
a provided empty-string `image_url` is treated as missing and the call fails
instead of submitting `[""]`. -/
theorem c9_i2v_inputs_counterexample :
    submitI2VTask { image_url := some "" } =
      .reject "缺少必要的参数: image_url 或 image_urls" :=
  rfl

/-- Claim C9, amended.  `submitI2VTask` normalizes its image inputs
deterministically: a non-empty `image_urls` array is used as-is and takes
priority over `image_url`; otherwise a provided *non-empty* `image_url` is
wrapped into a one-element array; when both are absent or empty the call
returns a failure without obtaining a task id; and `aspect_ratio` defaults
to `16:9` when unspecified. -/
theorem c9_i2v_inputs_amended :
    (∀ (p : GenerateI2VParams) (l : List String), p.image_urls = some l → l ≠ [] →
      ∃ b : I2VBody, submitI2VTask p = .submit b ∧ b.image_urls = l) ∧
    (∀ (p : GenerateI2VParams) (u : String),
      (p.image_urls = none ∨ p.image_urls = some []) → p.image_url = some u → u ≠ "" →
      ∃ b : I2VBody, submitI2VTask p = .submit b ∧ b.image_urls = [u]) ∧
    (∀ p : GenerateI2VParams,
      (p.image_urls = none ∨ p.image_urls = some []) →
      (p.image_url = none ∨ p.image_url = some "") →
      submitI2VTask p = .reject "缺少必要的参数: image_url 或 image_urls") ∧
    (∀ (p : GenerateI2VParams) (b : I2VBody), p.aspect_ratio = none →
      submitI2VTask p = .submit b → I2VBody.aspect_ratio b = "16:9") := by
  refine ⟨?_, ?_, ?_, ?_⟩
  · intro p l hl hne
    have hsel : selectImageUrls p = some l := by
      unfold selectImageUrls
      rw [hl]
      simp only [Option.getD_some]
      rw [if_pos]
      exact List.length_pos.mpr hne
    unfold submitI2VTask
    rw [hsel]
    exact ⟨_, rfl, rfl⟩
  · intro p u hl hu hune
    have hsel : selectImageUrls p = some [u] := by
      unfold selectImageUrls
      have h1 : ¬ (p.image_urls.getD []).length > 0 := by
        rcases hl with h | h <;> simp [h]
      simp [h1, hu, truthyStr, hune]
    unfold submitI2VTask
    rw [hsel]
    exact ⟨_, rfl, rfl⟩
  · intro p hl hu
    have hsel : selectImageUrls p = none := by
      unfold selectImageUrls
      have h1 : ¬ (p.image_urls.getD []).length > 0 := by
        rcases hl with h | h <;> simp [h]
      have h2 : truthyStr p.image_url = false := by
        rcases hu with h | h <;> simp [truthyStr, h]
      simp [h1, h2]
    unfold submitI2VTask
    rw [hsel]
  · intro p b har hsub
    unfold submitI2VTask at hsub
    cases hsel : selectImageUrls p with
    | none => rw [hsel] at hsub; exact absurd hsub (by simp)
    | some l =>
      rw [hsel] at hsub
      simp only [I2VDecision.submit.injEq] at hsub
      rw [← hsub]
      simp [jsOrOptS, har]

/-- Witness for C9 (amended): the empty-input failure via the theorem at a
concrete input, plus the array-priority and wrapping cases evaluated
concretely. -/
theorem c9_i2v_inputs_amended_witness :
    submitI2VTask {} = .reject "缺少必要的参数: image_url 或 image_urls" ∧
    submitI2VTask { image_urls := some ["a", "b"], image_url := some "c" } =
      .submit { req_key := "jimeng_vgfm_i2v_l20", image_urls := ["a", "b"],
                aspect_ratio := "16:9" } ∧
    submitI2VTask { image_url := some "c" } =
      .submit { req_key := "jimeng_vgfm_i2v_l20", image_urls := ["c"],
                aspect_ratio := "16:9" } := by
  refine ⟨?_, rfl, rfl⟩
  exact (c9_i2v_inputs_amended).2.2.1 {} (Or.inl rfl) (Or.inl rfl)

/-- Claim C10, counterexample.  The claim states that the task data's
`video_url` string is appended when present; but the source tests JS
truthiness, so a present-but-empty `video_url` is dropped: the assembled
list is empty rather than `[""]`. -/
theorem c10_video_urls_counterexample :
    extractVideoUrls noParse emptyVideoUrlTaskData = [] ∧
    VideoTaskData.video_url emptyVideoUrlTaskData = some (.str "") ∧
    videoUrlTail emptyVideoUrlTaskData = [] :=
  ⟨rfl, rfl, rfl⟩

/-- Claim C10, amended.  `getVideoTaskResult` assembles `video_urls` in a
fixed order: first the `urls` array obtained by JSON-parsing the string
field `resp_data` (contributing nothing when `resp_data` is absent, not a
string, empty, unparsable, or lacks a `urls` array), then the task data's
`video_url` string appended at the end when present *and non-empty*. -/
theorem c10_video_urls_amended :
    (∀ (parse : String → Option Js) (td : VideoTaskData),
      extractVideoUrls parse td = urlsFromRespData parse td ++ videoUrlTail td) ∧
    (∀ (parse : String → Option Js) (td : VideoTaskData),
      td.resp_data = none → urlsFromRespData parse td = []) ∧
    (∀ (parse : String → Option Js) (td : VideoTaskData) (v : Js),
      td.resp_data = some v → (∀ s : String, v ≠ .str s) → urlsFromRespData parse td = []) ∧
    (∀ (parse : String → Option Js) (td : VideoTaskData) (s : String),
      td.resp_data = some (.str s) → s ≠ "" → parse s = none →
      urlsFromRespData parse td = []) ∧
    (∀ (parse : String → Option Js) (td : VideoTaskData) (s : String) (v : Js),
      td.resp_data = some (.str s) → s ≠ "" → parse s = some v → getUrlsField v = none →
      urlsFromRespData parse td = []) ∧
    (∀ (parse : String → Option Js) (td : VideoTaskData) (s : String) (v : Js) (l : List Js),
      td.resp_data = some (.str s) → s ≠ "" → parse s = some v → getUrlsField v = some l →
      urlsFromRespData parse td = l) ∧
    (∀ td : VideoTaskData, td.video_url = none → videoUrlTail td = []) ∧
    (∀ (td : VideoTaskData) (s : String), td.video_url = some (.str s) → s ≠ "" →
      videoUrlTail td = [Js.str s]) := by
  refine ⟨?_, ?_, ?_, ?_, ?_, ?_, ?_, ?_⟩
  · intro parse td
    unfold extractVideoUrls urlsFromRespData videoUrlTail
    cases hv : td.video_url with
    | none => simp
    | some v =>
      cases v with
      | str s =>
        by_cases hs : s = ""
        · simp [hs]
        · simp [hs]
      | nullv => simp
      | boolv b => simp
      | num n => simp
      | arr l => simp
      | obj fields => simp
  · intro parse td h
    unfold urlsFromRespData
    rw [h]
  · intro parse td v h hne
    unfold urlsFromRespData
    rw [h]
    cases v with
    | str s => exact absurd rfl (hne s)
    | nullv => rfl
    | boolv b => rfl
    | num n => rfl
    | arr l => rfl
    | obj fields => rfl
  · intro parse td s h hs hp
    unfold urlsFromRespData
    rw [h]
    simp [hs, hp]
  · intro parse td s v h hs hp hu
    unfold urlsFromRespData
    rw [h]
    simp [hs, hp, hu]
  · intro parse td s v l h hs hp hu
    unfold urlsFromRespData
    rw [h]
    simp [hs, hp, hu]
  · intro td h
    unfold videoUrlTail
    rw [h]
  · intro td s h hs
    unfold videoUrlTail
    rw [h]
    simp [hs]

/-- Witness for C10 (amended), on a payload whose `resp_data` parses to a
`urls` array and whose `video_url` is a non-empty string: the assembled list
is the parsed array followed by `video_url`. -/
theorem c10_video_urls_amended_witness :
    extractVideoUrls urlsParseExample fullVideoTaskData =
      urlsFromRespData urlsParseExample fullVideoTaskData ++
        videoUrlTail fullVideoTaskData ∧
    urlsFromRespData urlsParseExample fullVideoTaskData = [Js.str "u"] ∧
    videoUrlTail fullVideoTaskData = [Js.str "v"] ∧
    extractVideoUrls urlsParseExample fullVideoTaskData = [Js.str "u", Js.str "v"] := by
  obtain ⟨h1, -, -, -, -, h6, -, h8⟩ := c10_video_urls_amended
  have hu : urlsFromRespData urlsParseExample fullVideoTaskData = [Js.str "u"] :=
    h6 urlsParseExample fullVideoTaskData "x" (.obj [("urls", .arr [.str "u"])]) [.str "u"]
      rfl (by decide) rfl rfl
  have ht : videoUrlTail fullVideoTaskData = [Js.str "v"] :=
    h8 fullVideoTaskData "v" rfl (by decide)
  refine ⟨h1 urlsParseExample fullVideoTaskData, hu, ht, ?_⟩
  rw [h1 urlsParseExample fullVideoTaskData, hu, ht]
  rfl

end Jimeng
